import Mathlib

/-!
Shallow embedding of `src/sepfinder.py`: the per-conversation wizard state
machine (`on_text`, `start`, `show_firmware_menu`) and the manifest
resolution fallback (`pzb_buildmanifest`).

External effects (the ipsw.me catalog API, the direct manifest fetch, the
`pzb` extraction subprocess, the temp-directory name chosen by `tempfile`)
are supplied by an `Env` oracle; sent chat messages are collected as a list
of `Msg` values, and outgoing network/subprocess calls are collected as a
list of `Action` values so that theorems can speak about which external
calls were attempted.  Process-level state touched by `pzb_buildmanifest`
(the current working directory and the set of existing directories) is an
explicit `Sys` value threaded through the handlers.  A Python exception
propagating out of the handler is modelled by the `raised` flag on the
result (with the messages sent before the raise recorded as usual).
-/

namespace Sepfinder

/-- The `State` enum of the source: the four wizard states plus the `NONE`
default installed by `ctx.user_data.setdefault('state', State.NONE)`. -/
inductive State where
  | NONE
  | DEVICE_TYPE
  | DEVICE_MODEL
  | BOARD_CONFIG
  | FIRMWARE
  deriving DecidableEq, Repr

/-- One entry of the catalog device list (`GET /v4/devices`). -/
structure DeviceSummary where
  identifier : String
  name : String
  deriving DecidableEq, Repr

/-- One board entry of a device detail; only `boardconfig` is read. -/
structure Board where
  boardconfig : String
  deriving DecidableEq, Repr

/-- A parsed download URL: `urllib.parse.urlparse` result restricted to the
fields the source reads (`netloc`, and `path` as its slash-split segments). -/
structure URL where
  netloc : String
  pathSegs : List String
  deriving DecidableEq, Repr

/-- One firmware entry of a device detail. -/
structure Firmware where
  version : String
  buildid : String
  url : URL
  signed : Bool
  deriving DecidableEq, Repr

/-- A device detail (`GET /v4/device/{identifier}`), restricted to the
fields the source reads. -/
structure DeviceDetail where
  name : String
  boards : List Board
  firmwares : List Firmware
  deriving DecidableEq, Repr

/-- `buildidentity['Manifest'][component]['Info']['Path']`, for one optional
component of a build identity. -/
structure ComponentInfo where
  Path : String
  deriving DecidableEq, Repr

/-- One entry of `buildmanifest['BuildIdentities']`, restricted to the
fields the source reads: `Info.DeviceClass` and the two optional
components of `Manifest`. -/
structure BuildIdentity where
  DeviceClass : String
  RestoreSEP : Option ComponentInfo
  BasebandFirmware : Option ComponentInfo
  deriving DecidableEq, Repr

/-- A parsed build manifest plist, restricted to the fields the source
reads. -/
structure BuildManifest where
  BuildIdentities : List BuildIdentity
  deriving DecidableEq, Repr

/-- The per-conversation `ctx.user_data` dictionary: possible keys are
`state` (defaulted to `NONE` by `setdefault`), `device` and `boardconfig`. -/
structure UserData where
  state : State
  device : Option DeviceDetail
  boardconfig : Option String
  deriving DecidableEq, Repr

/-- The process-wide `ctx.bot_data` dictionary shared by all conversations:
the only key used is `devices`, absent until the first device-type fetch. -/
structure BotData where
  devices : Option (List DeviceSummary)
  deriving DecidableEq, Repr

/-- Process-level state touched by `pzb_buildmanifest`: the working
directory and the set of directories currently existing on disk. -/
structure Sys where
  cwd : String
  dirs : List String
  deriving DecidableEq, Repr

/-- Outcome of the direct `session.get(buildmanifest_url)` fetch:
non-success status, success with a body that parses as a plist, or success
with a body `plistlib.loads` rejects. -/
inductive FetchResult where
  | notOk
  | okGood (bm : BuildManifest)
  | okBad
  deriving Repr

/-- Outcome of running `pzb <url> -g BuildManifest.plist` in the temp dir:
the extracted file is absent, present but unparsable, or present and
parsed. -/
inductive ExtractResult where
  | fileAbsent
  | parseFail
  | extracted (bm : BuildManifest)
  deriving Repr

/-- Oracle for all external effects of one handler invocation. -/
structure Env where
  listDevices : Option (List DeviceSummary)
  getDevice : String → Option DeviceDetail
  fetchManifest : URL → FetchResult
  extract : URL → ExtractResult
  tmpDir : String

/-- The chat messages the handlers send, identified by their source line. -/
inductive Msg where
  | selectDeviceType
  | invalidInput
  | apiError
  | noDevices
  | selectDevice
  | noBoardconfigs
  | selectBoard
  | invalidState
  | noSignedFirmwares
  | selectVersion
  | extracting
  | unableExtract
  | unableParse
  | unableGetData
  | finalReport (device boardconfig version buildid sep_path bb_path : String)
  deriving DecidableEq, Repr

/-- Outgoing external calls attempted by one handler invocation. -/
inductive Action where
  | apiDevices
  | apiDevice (identifier : String)
  | directFetch (u : URL)
  | runExtraction (u : URL)
  deriving DecidableEq, Repr

/-- The value bound to `buildmanifest` in the `FIRMWARE` branch: either a
parsed manifest, or — when `pzb_buildmanifest` takes its file-absent early
return — the `Message` object returned by `update.message.reply_text`. -/
inductive PzbVal where
  | manifest (bm : BuildManifest)
  | sentMessage
  deriving DecidableEq, Repr

/-- Result of one `on_text` invocation: the updated `user_data` and
`bot_data`, the process state, the messages sent, the external calls made,
and whether an exception propagated out of the handler. -/
structure TextResult where
  userData : UserData
  botData : BotData
  sys : Sys
  msgs : List Msg
  actions : List Action
  raised : Bool
  deriving DecidableEq, Repr

/-- Python `str.lower`, character by character (the inputs compared in this
program are ASCII identifiers, on which `Char.toLower` agrees with
Python). -/
def str_lower (s : String) : String := ⟨s.data.map Char.toLower⟩

/-- Python `str.endswith`, over the code-point list. -/
def str_endsWith (s post : String) : Bool :=
  post.data == s.data.drop (s.data.length - post.data.length)

/-- Python `str.startswith`, over the code-point list. -/
def str_startsWith (s pre : String) : Bool :=
  pre.data == s.data.take pre.data.length

/-- Left-to-right non-overlapping replacement of a nonempty pattern, with a
fuel argument (one unit per emitted character position, so the input
length is always enough fuel). -/
def list_replace_aux (pat rep : List Char) : Nat → List Char → List Char
  | _, [] => []
  | 0, l => l
  | fuel + 1, c :: rest =>
    if pat.isPrefixOf (c :: rest) then
      rep ++ list_replace_aux pat rep fuel ((c :: rest).drop pat.length)
    else
      c :: list_replace_aux pat rep fuel rest

/-- Python `str.replace` (all occurrences, left to right). -/
def str_replace (s pat rep : String) : String :=
  ⟨list_replace_aux pat.data rep.data s.data.length s.data⟩

/-- The `DEVICE_TYPES` dictionary of the source. -/
def DEVICE_TYPES : List (String × String) :=
  [("iPhone", "iPhone"), ("iPad", "iPad"), ("iPod touch", "iPod"), ("Apple TV", "AppleTV")]

/-- `DEVICE_TYPES[text]`, as an `Option` (a `KeyError` becomes `none`). -/
def deviceTypeOf (text : String) : Option String :=
  (DEVICE_TYPES.find? (fun p => p.1 == text)).map (fun p => p.2)

/-- Python `html.escape` with its default `quote=True`. -/
def html_escape (s : String) : String :=
  str_replace (str_replace (str_replace (str_replace (str_replace
    s "&" "&amp;") "<" "&lt;") ">" "&gt;") "\x22" "&quot;") "\x27" "&#x27;"

/-- `sep_path` for a matched build identity (lines 170-173): the
`RestoreSEP` component path if present, else the literal string "None". -/
def sepPathOf (bi : BuildIdentity) : String :=
  match bi.RestoreSEP with
  | some c => c.Path
  | none => "None"

/-- `bb_path` for a matched build identity (lines 175-178): the
`BasebandFirmware` component path if present, else "None". -/
def bbPathOf (bi : BuildIdentity) : String :=
  match bi.BasebandFirmware with
  | some c => c.Path
  | none => "None"

/-- The manifest query of the `FIRMWARE` branch (the `try` block, lines
164-181): `next` over `BuildIdentities` matching `Info.DeviceClass`
case-insensitively, then the two component paths.  `none` is the
exception case caught by `except Exception`: either `StopIteration` (no
identity matches) or the `TypeError` of subscripting the non-manifest
`Message` value that `pzb_buildmanifest` returns on extraction failure. -/
def manifestQueryVal (v : PzbVal) (board : String) : Option (String × String) :=
  match v with
  | .sentMessage => none
  | .manifest bm =>
    match bm.BuildIdentities.find? (fun x => str_lower x.DeviceClass == str_lower board) with
    | none => none
    | some bi => some (sepPathOf bi, bbPathOf bi)

/-- `show_firmware_menu` (lines 203-222): requires a cached device, filters
firmwares to signed ones, and only when some exist advances the state to
`FIRMWARE`.  Returns the updated `user_data` and the messages sent. -/
def show_firmware_menu (u : UserData) : UserData × List Msg :=
  match u.device with
  | none => (u, [.invalidState])
  | some dev =>
    let firmwares := dev.firmwares.filter (fun x => x.signed)
    if firmwares.isEmpty then
      (u, [.noSignedFirmwares])
    else
      ({ u with state := .FIRMWARE }, [.selectVersion])

/-- `pzb_buildmanifest` (lines 225-253).  Creates the temp directory
`env.tmpDir`, saves `oldcwd`, chdirs into it, runs `pzb`, and then: on an
absent extracted file returns the `reply_text` result (a non-manifest
value) with the cwd still pointing at the now-removed temp dir; on a parse
failure sends the parse message and raises (first component `none`), again
without restoring the cwd; on success restores the cwd and returns the
manifest.  The `with tempfile.TemporaryDirectory()` block removes the temp
directory on every path, so `dirs` is restored in all three cases. -/
def pzb_buildmanifest (env : Env) (sys : Sys) (firmware : Firmware) :
    Option PzbVal × Sys × List Msg × List Action :=
  let oldcwd := sys.cwd
  match env.extract firmware.url with
  | .fileAbsent =>
    (some .sentMessage, { cwd := env.tmpDir, dirs := sys.dirs },
      [.extracting, .unableExtract], [.runExtraction firmware.url])
  | .parseFail =>
    (none, { cwd := env.tmpDir, dirs := sys.dirs },
      [.extracting, .unableParse], [.runExtraction firmware.url])
  | .extracted bm =>
    (some (.manifest bm), { cwd := oldcwd, dirs := sys.dirs },
      [.extracting], [.runExtraction firmware.url])

/-- `on_text` (lines 53-200): one text message delivered to the wizard. -/
def on_text (env : Env) (bot : BotData) (sys : Sys) (u : UserData) (text : String) :
    TextResult :=
  match u.state with
  | .DEVICE_TYPE =>
    match deviceTypeOf text with
    | none => ⟨u, bot, sys, [.invalidInput], [], false⟩
    | some device_type =>
      match env.listDevices with
      | none => ⟨u, bot, sys, [.apiError], [.apiDevices], false⟩
      | some allDevices =>
        let bot' : BotData := { devices := some allDevices }
        let devices := allDevices.filter (fun x => str_startsWith x.identifier device_type)
        if devices.isEmpty then
          ⟨u, bot', sys, [.noDevices], [.apiDevices], false⟩
        else
          ⟨{ u with state := .DEVICE_MODEL }, bot', sys, [.selectDevice], [.apiDevices], false⟩
  | .DEVICE_MODEL =>
    match bot.devices with
    | none =>
      -- `ctx.bot_data['devices']` raises `KeyError`, not caught by
      -- `except StopIteration`: the handler dies before sending anything.
      ⟨u, bot, sys, [], [], true⟩
    | some ds =>
      match ds.find? (fun x => x.name == text) with
      | none => ⟨u, bot, sys, [.invalidInput], [], false⟩
      | some dsum =>
        match env.getDevice dsum.identifier with
        | none => ⟨u, bot, sys, [.apiError], [.apiDevice dsum.identifier], false⟩
        | some device =>
          let boards := (device.boards.map (fun x => x.boardconfig)).filter
            (fun b => str_endsWith (str_lower b) "ap")
          if boards.isEmpty then
            ⟨u, bot, sys, [.noBoardconfigs], [.apiDevice dsum.identifier], false⟩
          else if boards.length > 1 then
            ⟨{ u with device := some device, state := .BOARD_CONFIG }, bot, sys,
              [.selectBoard], [.apiDevice dsum.identifier], false⟩
          else
            let m := show_firmware_menu
              { u with device := some device, boardconfig := some (boards.headD "") }
            ⟨m.1, bot, sys, m.2, [.apiDevice dsum.identifier], false⟩
  | .BOARD_CONFIG =>
    if !(str_endsWith (str_lower text) "ap") then
      ⟨u, bot, sys, [.invalidInput], [], false⟩
    else
      let m := show_firmware_menu { u with boardconfig := some text }
      ⟨m.1, bot, sys, m.2, [], false⟩
  | .FIRMWARE =>
    match u.device, u.boardconfig with
    | some device, some boardconfig =>
      match device.firmwares.find? (fun x => x.version == text) with
      | none => ⟨u, bot, sys, [.invalidInput], [], false⟩
      | some firmware =>
        let res : Option PzbVal × Sys × List Msg × List Action :=
          if firmware.url.netloc == "appldnld.apple.com" then
            pzb_buildmanifest env sys firmware
          else
            let bmUrl : URL :=
              { firmware.url with
                pathSegs := firmware.url.pathSegs.dropLast ++ ["BuildManifest.plist"] }
            match env.fetchManifest bmUrl with
            | .okGood bm =>
              (some (.manifest bm), sys, [], [.directFetch bmUrl])
            | .okBad =>
              (none, sys, [.unableParse], [.directFetch bmUrl])
            | .notOk =>
              let r := pzb_buildmanifest env sys firmware
              (r.1, r.2.1, r.2.2.1, .directFetch bmUrl :: r.2.2.2)
        match res.1 with
        | none => ⟨u, bot, res.2.1, res.2.2.1, res.2.2.2, true⟩
        | some val =>
          match manifestQueryVal val boardconfig with
          | none =>
            ⟨u, bot, res.2.1, res.2.2.1 ++ [.unableGetData], res.2.2.2, true⟩
          | some sepbb =>
            ⟨⟨.NONE, none, none⟩, bot, res.2.1,
              res.2.2.1 ++ [.finalReport (html_escape device.name)
                (html_escape boardconfig) (html_escape firmware.version)
                (html_escape firmware.buildid) (html_escape sepbb.1)
                (html_escape sepbb.2)],
              res.2.2.2, false⟩
    | _, _ => ⟨u, bot, sys, [.invalidState], [], false⟩
  | .NONE =>
    -- the defensive `else` branch (lines 199-200): sends the notice and
    -- leaves `ctx.user_data` untouched.
    ⟨u, bot, sys, [.invalidState], [], false⟩

/-- The `/start` handler (lines 37-50): clears `user_data` and enters
`DEVICE_TYPE`, regardless of the previous session contents. -/
def start (_u : UserData) : UserData × List Msg :=
  (⟨.DEVICE_TYPE, none, none⟩, [.selectDeviceType])

/-! ### Concrete fixtures used by witnesses and counterexamples -/

/-- An empty shared `bot_data` (no `devices` key yet). -/
def botNull : BotData := ⟨none⟩

/-- A process state whose working directory exists. -/
def sys0 : Sys := ⟨"/home/bot", ["/home/bot"]⟩

/-- An environment in which every external call fails. -/
def envNull : Env :=
  { listDevices := none
    getDevice := fun _ => none
    fetchManifest := fun _ => .notOk
    extract := fun _ => .fileAbsent
    tmpDir := "/tmp/pzb0" }

/-- A non-legacy firmware download URL. -/
def urlCdn : URL := ⟨"updates.cdn-apple.com", ["", "ios", "iPhone6,1_12.3.ipsw"]⟩

/-- A legacy-origin firmware download URL. -/
def urlLegacy : URL := ⟨"appldnld.apple.com", ["", "ios", "iPhone6,1_12.3.ipsw"]⟩

def fw1 : Firmware := ⟨"12.3", "16F203", urlCdn, true⟩

def fwLegacy : Firmware := ⟨"12.3", "16F203", urlLegacy, true⟩

def fwUnsigned : Firmware := ⟨"12.2", "16E227", urlCdn, false⟩

def dev1 : DeviceDetail := ⟨"iPhone 5s", [⟨"N51AP"⟩], [fw1]⟩

def devLegacy : DeviceDetail := ⟨"iPhone 5s", [⟨"N51AP"⟩], [fwLegacy]⟩

/-- A device with one eligible board and no signed firmware. -/
def devNoSigned : DeviceDetail := ⟨"iPhone 5s", [⟨"N51AP"⟩], [fwUnsigned]⟩

/-- A build identity matching board config "N51AP" case-insensitively,
with a SEP component and no baseband component. -/
def biMatch : BuildIdentity := ⟨"n51ap", some ⟨"Firmware/all_flash/sep.im4p"⟩, none⟩

/-- A build identity for a different board. -/
def biOther : BuildIdentity := ⟨"n53ap", none, some ⟨"Firmware/Mav7-Mav8.bbfw"⟩⟩

def bmW : BuildManifest := ⟨[biOther, biMatch]⟩

def dsumA : DeviceSummary := ⟨"iPhone6,1", "iPhone 5s"⟩

def dsumB : DeviceSummary := ⟨"iPhone7,1", "iPhone 6 Plus"⟩

/-- An environment whose device-list fetch returns only `dsumA`. -/
def envA : Env := { envNull with listDevices := some [dsumA] }

/-- An environment whose device-list fetch returns only `dsumB`. -/
def envB : Env := { envNull with listDevices := some [dsumB] }

/-- The shared cache after a device-type fetch that returned `[dsumA]`. -/
def botA : BotData := ⟨some [dsumA]⟩

/-- An environment whose device-detail fetch returns `devNoSigned`. -/
def envDetail : Env := { envNull with getDevice := fun _ => some devNoSigned }

/-- An environment whose direct manifest fetch returns an unparsable body. -/
def envFetchBad : Env := { envNull with fetchManifest := fun _ => .okBad }

/-- The session a real run gets stuck in: device chosen, single board
auto-assigned, but no signed firmware, so `show_firmware_menu` declined to
advance and the step is still `DEVICE_MODEL` with both caches populated. -/
def uStuck : UserData := ⟨.DEVICE_MODEL, some devNoSigned, some "N51AP"⟩

/-- The `user_data` values one conversation can reach: the empty initial
session, a `/start`, or any `on_text` step.  The shared `bot_data`, the
environment and the process state are arbitrary at each step, since other
conversations and the outside world may change them between this
conversation's messages. -/
inductive Reachable : UserData → Prop where
  | init : Reachable ⟨.NONE, none, none⟩
  | step_start (u : UserData) : Reachable u → Reachable (start u).1
  | step_text (env : Env) (bot : BotData) (sys : Sys) (u : UserData) (t : String) :
      Reachable u → Reachable (on_text env bot sys u t).userData

/-- The data-population invariant the session actually maintains: nothing
is cached at the idle default or at `DEVICE_TYPE`; a `BOARD_CONFIG`
session has a device cached; a `FIRMWARE` session has both; and a cached
board config never appears without a cached device.  (The spec's stronger
claim — nothing cached before the step that sets it has been passed — is
refuted by `show_firmware_menu`'s no-signed-firmwares path, which leaves
the step at `DEVICE_MODEL`/`BOARD_CONFIG` with both fields populated.) -/
def sessionInv (u : UserData) : Prop :=
  ((u.state = .NONE ∨ u.state = .DEVICE_TYPE) → u.device = none ∧ u.boardconfig = none)
  ∧ (u.state = .BOARD_CONFIG → u.device ≠ none)
  ∧ (u.state = .FIRMWARE → u.device ≠ none ∧ u.boardconfig ≠ none)
  ∧ (u.boardconfig ≠ none → u.device ≠ none)

/-- `on_text` preserves `sessionInv`, whatever the environment and the
shared state. -/
theorem sessionInv_on_text (env : Env) (bot : BotData) (sys : Sys) (u : UserData)
    (t : String) (h : sessionInv u) : sessionInv ((on_text env bot sys u t).userData) := by
  obtain ⟨s, d, b⟩ := u
  obtain ⟨h1, h2, h3, h4⟩ := h
  cases s with
  | NONE => exact ⟨h1, h2, h3, h4⟩
  | DEVICE_TYPE =>
    obtain ⟨hd, hb⟩ := h1 (Or.inr rfl)
    subst hd; subst hb
    simp only [on_text]
    rcases deviceTypeOf t with _ | dt
    · exact ⟨fun _ => ⟨rfl, rfl⟩, h2, h3, h4⟩
    · rcases env.listDevices with _ | all
      · exact ⟨fun _ => ⟨rfl, rfl⟩, h2, h3, h4⟩
      · dsimp only
        split
        · exact ⟨fun _ => ⟨rfl, rfl⟩, h2, h3, h4⟩
        · exact ⟨by simp [sessionInv], by simp, by simp, by simp⟩
  | DEVICE_MODEL =>
    simp only [on_text]
    rcases bot.devices with _ | ds
    · exact ⟨h1, h2, h3, h4⟩
    · dsimp only
      cases hfind : ds.find? (fun x => x.name == t) with
      | none => simp only [hfind]; exact ⟨h1, h2, h3, h4⟩
      | some dsum =>
        simp only [hfind]
        cases hget : env.getDevice dsum.identifier with
        | none => simp only [hget]; exact ⟨h1, h2, h3, h4⟩
        | some device =>
          simp only [hget]
          split
          · exact ⟨h1, h2, h3, h4⟩
          · split
            · exact ⟨by simp, by simp, by simp, by simp⟩
            · simp only [show_firmware_menu]
              split
              · exact ⟨by simp, by simp, by simp, by simp⟩
              · exact ⟨by simp, by simp, by simp, by simp⟩
  | BOARD_CONFIG =>
    have hd : d ≠ none := h2 rfl
    rcases d with _ | dev
    · exact absurd rfl hd
    · simp only [on_text]
      split
      · exact ⟨h1, h2, h3, h4⟩
      · simp only [show_firmware_menu]
        split
        · exact ⟨by simp, by simp, by simp, by simp⟩
        · exact ⟨by simp, by simp, by simp, by simp⟩
  | FIRMWARE =>
    obtain ⟨hd, hb⟩ := h3 rfl
    rcases d with _ | dev
    · exact absurd rfl hd
    rcases b with _ | bc
    · exact absurd rfl hb
    simp only [on_text]
    cases hfind : dev.firmwares.find? (fun x => x.version == t) with
    | none => simp only [hfind]; exact ⟨h1, h2, h3, h4⟩
    | some fw =>
      simp only [hfind]
      split
      · exact ⟨h1, h2, h3, h4⟩
      · split
        · exact ⟨h1, h2, h3, h4⟩
        · exact ⟨by simp, by simp, by simp, by simp⟩

/-- Every reachable session satisfies `sessionInv`. -/
theorem reachable_sessionInv (u : UserData) (h : Reachable u) : sessionInv u := by
  induction h with
  | init => exact ⟨fun _ => ⟨rfl, rfl⟩, by simp, by simp, by simp⟩
  | step_start u _ _ => exact ⟨fun _ => ⟨rfl, rfl⟩, by simp [start], by simp [start], by simp [start]⟩
  | step_text env bot sys u t _ ih => exact sessionInv_on_text env bot sys u t ih

/-- C1, counterexample: invoking `on_text` on a session whose stored state
is the unrecognized default `NONE` while cached data is present does send
the "Invalid state. Please start over" notice, but leaves the session —
including the cached device detail and board config — entirely unchanged:
the handler performs no reset and clears nothing. -/
theorem C1_counterexample :
    (on_text envNull botNull sys0 ⟨.NONE, some dev1, some "N51AP"⟩ "hello").msgs
        = [Msg.invalidState]
    ∧ (on_text envNull botNull sys0 ⟨.NONE, some dev1, some "N51AP"⟩ "hello").userData
        = ⟨.NONE, some dev1, some "N51AP"⟩
    ∧ (⟨State.NONE, some dev1, some "N51AP"⟩ : UserData).device ≠ none :=
  ⟨rfl, rfl, by decide⟩

/-- C1, amended: on an unrecognized state (the only value outside the four
wizard states is the `NONE` default) `on_text` sends the "Invalid state.
Please start over" notice and leaves the session exactly as it was — no
reset, no clearing of cached data; separately, every reachable session
whose state is `NONE` already holds no cached data, so on reachable
sessions the observable outcome coincides with a reset to idle. -/
theorem C1_unrecognized_state :
    (∀ (env : Env) (bot : BotData) (sys : Sys) (u : UserData) (t : String),
      u.state = State.NONE →
        (on_text env bot sys u t).msgs = [Msg.invalidState]
        ∧ (on_text env bot sys u t).userData = u)
    ∧ ∀ u : UserData, Reachable u → u.state = State.NONE →
        u.device = none ∧ u.boardconfig = none := by
  constructor
  · intro env bot sys u t h
    obtain ⟨s, d, b⟩ := u
    cases h
    exact ⟨rfl, rfl⟩
  · intro u hr hs
    exact (reachable_sessionInv u hr).1 (Or.inl hs)

/-- C1, witness: the amended theorem applied at a concrete session. -/
theorem C1_unrecognized_state_witness :
    (on_text envNull botNull sys0 ⟨State.NONE, none, none⟩ "hi").msgs = [Msg.invalidState]
    ∧ (⟨State.NONE, none, none⟩ : UserData).device = none :=
  ⟨(C1_unrecognized_state.1 envNull botNull sys0 ⟨State.NONE, none, none⟩ "hi" rfl).1,
    (C1_unrecognized_state.2 ⟨State.NONE, none, none⟩ Reachable.init rfl).1⟩

/-- C2: on the extracted-file-absent path of `pzb_buildmanifest` the
temporary workspace is indeed removed (the directory set is restored),
but `os.chdir(oldcwd)` on line 251 is never reached, so the process is
left with its working directory pointing at the deleted temp directory
instead of the pre-call value, and the sent-message value is returned. -/
theorem C2_cwd_not_restored :
    (pzb_buildmanifest envNull sys0 fwLegacy).2.1.dirs = sys0.dirs
    ∧ (pzb_buildmanifest envNull sys0 fwLegacy).2.1.cwd = "/tmp/pzb0"
    ∧ (pzb_buildmanifest envNull sys0 fwLegacy).2.1.cwd ≠ sys0.cwd
    ∧ (pzb_buildmanifest envNull sys0 fwLegacy).1 = some PzbVal.sentMessage :=
  ⟨rfl, rfl, by decide, rfl⟩

/-- C5, counterexample: at the firmware-menu sub-step with a cached device
having no signed firmware, the wizard reports "No signed firmwares found"
but does NOT reset the session to idle: the step stays where it was
(`BOARD_CONFIG` here), contradicting the claimed reset. -/
theorem C5_counterexample :
    (on_text envNull botNull sys0 ⟨.BOARD_CONFIG, some devNoSigned, none⟩ "N51AP").msgs
      = [Msg.noSignedFirmwares]
    ∧ (on_text envNull botNull sys0
        ⟨.BOARD_CONFIG, some devNoSigned, none⟩ "N51AP").userData.state
      = State.BOARD_CONFIG := by
  exact ⟨by decide, by decide⟩

/-- C5, amended: when the cached device has no firmware with
`signed == true`, the firmware-menu presentation reports "No signed
firmwares found" and returns with the session left exactly as it was —
the step is not cleared, so the next message is handled at the same
step. -/
theorem C5_no_signed_firmwares (u : UserData) (dev : DeviceDetail)
    (hdev : u.device = some dev)
    (hempty : dev.firmwares.filter (fun x => x.signed) = []) :
    show_firmware_menu u = (u, [Msg.noSignedFirmwares]) := by
  simp [show_firmware_menu, hdev, hempty]

/-- C5, witness. -/
theorem C5_no_signed_firmwares_witness :
    show_firmware_menu ⟨State.BOARD_CONFIG, some devNoSigned, some "N51AP"⟩
      = (⟨State.BOARD_CONFIG, some devNoSigned, some "N51AP"⟩, [Msg.noSignedFirmwares]) :=
  C5_no_signed_firmwares _ devNoSigned rfl (by decide)

/-- C6: every text rejected as invalid input — unrecognized device type,
unmatched device name, board config without the "ap" suffix, unmatched
firmware version — leaves the session's step unchanged. -/
theorem C6_invalid_input_keeps_step (env : Env) (bot : BotData) (sys : Sys)
    (u : UserData) (t : String)
    (h : (u.state = State.DEVICE_TYPE ∧ deviceTypeOf t = none)
      ∨ (u.state = State.DEVICE_MODEL
          ∧ ∃ ds, bot.devices = some ds ∧ ds.find? (fun x => x.name == t) = none)
      ∨ (u.state = State.BOARD_CONFIG ∧ str_endsWith (str_lower t) "ap" = false)
      ∨ (u.state = State.FIRMWARE
          ∧ ∃ dev bc, u.device = some dev ∧ u.boardconfig = some bc
            ∧ dev.firmwares.find? (fun x => x.version == t) = none)) :
    (on_text env bot sys u t).userData.state = u.state := by
  obtain ⟨s, d, b⟩ := u
  rcases h with ⟨hs, hn⟩ | ⟨hs, ds, hds, hn⟩ | ⟨hs, hn⟩ | ⟨hs, dev, bc, hd, hb, hn⟩ <;>
    cases hs
  · simp [on_text, hn]
  · simp [on_text, hds, hn]
  · simp [on_text, hn]
  · cases hd; cases hb; simp [on_text, hn]

/-- C6, witness: an unrecognized device type at the device-type step. -/
theorem C6_invalid_input_keeps_step_witness :
    (on_text envNull botNull sys0 ⟨State.DEVICE_TYPE, none, none⟩ "Samsung").userData.state
      = State.DEVICE_TYPE :=
  C6_invalid_input_keeps_step envNull botNull sys0 ⟨State.DEVICE_TYPE, none, none⟩ "Samsung"
    (Or.inl ⟨rfl, by decide⟩)

/-- The extraction fallback's only external call is the `pzb` run, whatever
its outcome. -/
theorem pzb_actions (env : Env) (sys : Sys) (fw : Firmware) :
    (pzb_buildmanifest env sys fw).2.2.2 = [Action.runExtraction fw.url] := by
  cases hx : env.extract fw.url <;> simp [pzb_buildmanifest, hx]

/-- C7: at the firmware step, a firmware whose URL host is the legacy
`appldnld.apple.com` origin is always resolved through the extraction
fallback, and no direct sibling-manifest fetch is ever attempted. -/
theorem C7_legacy_uses_extraction (env : Env) (bot : BotData) (sys : Sys)
    (u : UserData) (t : String) (dev : DeviceDetail) (bc : String) (fw : Firmware)
    (hs : u.state = State.FIRMWARE) (hd : u.device = some dev)
    (hb : u.boardconfig = some bc)
    (hf : dev.firmwares.find? (fun x => x.version == t) = some fw)
    (hu : fw.url.netloc = "appldnld.apple.com") :
    (on_text env bot sys u t).actions = [Action.runExtraction fw.url]
    ∧ ∀ v : URL, Action.directFetch v ∉ (on_text env bot sys u t).actions := by
  obtain ⟨s, d, b⟩ := u
  cases hs; cases hd; cases hb
  have hc : (fw.url.netloc == "appldnld.apple.com") = true := by simp [hu]
  have hmain : (on_text env bot sys ⟨State.FIRMWARE, some dev, some bc⟩ t).actions
      = [Action.runExtraction fw.url] := by
    simp only [on_text, hf, hc, if_true]
    cases hm : (pzb_buildmanifest env sys fw).1 with
    | none => simpa using pzb_actions env sys fw
    | some val =>
      cases hq : manifestQueryVal val bc <;> simp [hm, hq, pzb_actions]
  refine ⟨hmain, fun v => ?_⟩
  rw [hmain]
  simp

/-- C7, witness. -/
theorem C7_legacy_uses_extraction_witness :
    (on_text envNull botNull sys0 ⟨State.FIRMWARE, some devLegacy, some "N51AP"⟩ "12.3").actions
      = [Action.runExtraction fwLegacy.url] :=
  (C7_legacy_uses_extraction envNull botNull sys0
    ⟨State.FIRMWARE, some devLegacy, some "N51AP"⟩ "12.3" devLegacy "N51AP" fwLegacy
    rfl rfl rfl (by decide) rfl).1

/-- C8: when the direct sibling-manifest fetch succeeds but the body fails
property-list parsing, the handler sends the parse-error message and the
exception propagates out of the handler; the extraction fallback is never
invoked.  (Extraction is reached only when the fetch status itself is
non-success.) -/
theorem C8_parse_failure_fatal (env : Env) (bot : BotData) (sys : Sys)
    (u : UserData) (t : String) (dev : DeviceDetail) (bc : String) (fw : Firmware)
    (hs : u.state = State.FIRMWARE) (hd : u.device = some dev)
    (hb : u.boardconfig = some bc)
    (hf : dev.firmwares.find? (fun x => x.version == t) = some fw)
    (hu : fw.url.netloc ≠ "appldnld.apple.com")
    (hfetch : env.fetchManifest
        ⟨fw.url.netloc, fw.url.pathSegs.dropLast ++ ["BuildManifest.plist"]⟩
      = FetchResult.okBad) :
    (on_text env bot sys u t).msgs = [Msg.unableParse]
    ∧ (on_text env bot sys u t).raised = true
    ∧ ∀ v : URL, Action.runExtraction v ∉ (on_text env bot sys u t).actions := by
  obtain ⟨s, d, b⟩ := u
  cases hs; cases hd; cases hb
  have hc : (fw.url.netloc == "appldnld.apple.com") = false := by
    simpa using hu
  simp [on_text, hf, hc, hfetch]

/-- C8, witness. -/
theorem C8_parse_failure_fatal_witness :
    (on_text envFetchBad botNull sys0 ⟨State.FIRMWARE, some dev1, some "N51AP"⟩ "12.3").msgs
      = [Msg.unableParse] :=
  (C8_parse_failure_fatal envFetchBad botNull sys0
    ⟨State.FIRMWARE, some dev1, some "N51AP"⟩ "12.3" dev1 "N51AP" fw1
    rfl rfl rfl (by decide) (by decide) rfl).1

/-- C9: the manifest query yields the component paths of the FIRST build
identity whose `DeviceClass` equals the requested board config
case-insensitively — the SEP path being the `RestoreSEP` component path if
present else the literal "None", likewise for baseband — and yields no
result (the raised `StopIteration`) when no identity matches. -/
theorem C9_query_first_case_insensitive_match (bm : BuildManifest) (board : String) :
    ((∀ bi ∈ bm.BuildIdentities, str_lower bi.DeviceClass ≠ str_lower board) →
      manifestQueryVal (PzbVal.manifest bm) board = none)
    ∧ ∀ (l₁ : List BuildIdentity) (bi : BuildIdentity) (l₂ : List BuildIdentity),
        bm.BuildIdentities = l₁ ++ bi :: l₂ →
        (∀ x ∈ l₁, str_lower x.DeviceClass ≠ str_lower board) →
        str_lower bi.DeviceClass = str_lower board →
        manifestQueryVal (PzbVal.manifest bm) board = some (sepPathOf bi, bbPathOf bi) := by
  constructor
  · intro hall
    have hfind : bm.BuildIdentities.find?
        (fun x => str_lower x.DeviceClass == str_lower board) = none := by
      rw [List.find?_eq_none]
      intro x hx
      simpa using hall x hx
    simp [manifestQueryVal, hfind]
  · intro l₁ bi l₂ heq hl₁ hbi
    have hfind : bm.BuildIdentities.find?
        (fun x => str_lower x.DeviceClass == str_lower board) = some bi := by
      rw [heq]
      clear heq
      induction l₁ with
      | nil =>
        rw [List.nil_append]
        exact List.find?_cons_of_pos _ (by simpa using hbi)
      | cons a as ih =>
        rw [List.cons_append,
          List.find?_cons_of_neg _ (by simpa using hl₁ a (List.mem_cons_self a as))]
        exact ih fun x hx => hl₁ x (List.mem_cons_of_mem a hx)
    simp [manifestQueryVal, hfind]

/-- C9, witness: of the two identities in `bmW`, the second is the first
case-insensitive match for "N51AP", its SEP path is its component path and
its baseband path is the literal "None". -/
theorem C9_query_first_case_insensitive_match_witness :
    manifestQueryVal (PzbVal.manifest bmW) "N51AP"
      = some (sepPathOf biMatch, bbPathOf biMatch) :=
  (C9_query_first_case_insensitive_match bmW "N51AP").2 [biOther] biMatch [] rfl
    (by decide) (by decide)

/-- C10: when resolution takes the extraction fallback (legacy origin, or
direct fetch with non-success status) and the extracted manifest file is
absent, `pzb_buildmanifest` returns the sent-message value instead of
stopping; the firmware handler then runs the manifest query on that
value, which fails, so the user receives both the extraction-failure and
the query-failure messages, the exception propagates, and no final report
is sent. -/
theorem C10_extraction_failure_cascades (env : Env) (bot : BotData) (sys : Sys)
    (u : UserData) (t : String) (dev : DeviceDetail) (bc : String) (fw : Firmware)
    (hs : u.state = State.FIRMWARE) (hd : u.device = some dev)
    (hb : u.boardconfig = some bc)
    (hf : dev.firmwares.find? (fun x => x.version == t) = some fw)
    (hroute : fw.url.netloc = "appldnld.apple.com"
      ∨ (fw.url.netloc ≠ "appldnld.apple.com"
          ∧ env.fetchManifest
              ⟨fw.url.netloc, fw.url.pathSegs.dropLast ++ ["BuildManifest.plist"]⟩
            = FetchResult.notOk))
    (hx : env.extract fw.url = ExtractResult.fileAbsent) :
    (pzb_buildmanifest env sys fw).1 = some PzbVal.sentMessage
    ∧ (on_text env bot sys u t).msgs
        = [Msg.extracting, Msg.unableExtract, Msg.unableGetData]
    ∧ (on_text env bot sys u t).raised = true
    ∧ ∀ a b c d e f, Msg.finalReport a b c d e f ∉ (on_text env bot sys u t).msgs := by
  obtain ⟨s, d, b⟩ := u
  cases hs; cases hd; cases hb
  have hp : pzb_buildmanifest env sys fw
      = (some PzbVal.sentMessage, ⟨env.tmpDir, sys.dirs⟩,
          [Msg.extracting, Msg.unableExtract], [Action.runExtraction fw.url]) := by
    simp [pzb_buildmanifest, hx]
  refine ⟨by rw [hp], ?_⟩
  have hmain : (on_text env bot sys ⟨State.FIRMWARE, some dev, some bc⟩ t).msgs
        = [Msg.extracting, Msg.unableExtract, Msg.unableGetData]
      ∧ (on_text env bot sys ⟨State.FIRMWARE, some dev, some bc⟩ t).raised = true := by
    rcases hroute with hu | ⟨hu, hfetch⟩
    · have hc : (fw.url.netloc == "appldnld.apple.com") = true := by simp [hu]
      simp only [on_text, hf, hc, if_true, hp]
      exact ⟨rfl, rfl⟩
    · have hc : (fw.url.netloc == "appldnld.apple.com") = false := by simpa using hu
      simp only [on_text, hf, hc, Bool.false_eq_true, if_false, hfetch, hp]
      exact ⟨rfl, rfl⟩
  refine ⟨hmain.1, hmain.2, fun a b c d e f => ?_⟩
  rw [hmain.1]
  simp

/-- C10, witness: the legacy-origin route with a failed extraction. -/
theorem C10_extraction_failure_cascades_witness :
    (on_text envNull botNull sys0 ⟨State.FIRMWARE, some devLegacy, some "N51AP"⟩ "12.3").msgs
      = [Msg.extracting, Msg.unableExtract, Msg.unableGetData] :=
  (C10_extraction_failure_cascades envNull botNull sys0
    ⟨State.FIRMWARE, some devLegacy, some "N51AP"⟩ "12.3" devLegacy "N51AP" fwLegacy
    rfl rfl rfl (by decide) (Or.inl rfl) rfl).2.1

/-- C3, counterexample: the device list is cached in the process-wide
shared `bot_data`, not per session.  Conversation A selects "iPhone" (the
fetch returns `[dsumA]`) and reaches the device-model step; without any
interference, A's text "iPhone 5s" is matched (here the follow-up detail
fetch fails, so the reply is the try-later notice, not "Invalid input").
If conversation B selects "iPhone" in between and B's fetch returns
`[dsumB]`, the shared cache is overwritten and the very same message from
A is now rejected as "Invalid input": B's device-type selection changed
the set of device names A's device-model step accepts. -/
theorem C3_counterexample :
    (on_text envNull
        ((on_text envA botNull sys0 ⟨.DEVICE_TYPE, none, none⟩ "iPhone").botData) sys0
        ((on_text envA botNull sys0 ⟨.DEVICE_TYPE, none, none⟩ "iPhone").userData)
        "iPhone 5s").msgs ≠ [Msg.invalidInput]
    ∧ (on_text envNull
        ((on_text envB
            ((on_text envA botNull sys0 ⟨.DEVICE_TYPE, none, none⟩ "iPhone").botData)
            sys0 ⟨.DEVICE_TYPE, none, none⟩ "iPhone").botData) sys0
        ((on_text envA botNull sys0 ⟨.DEVICE_TYPE, none, none⟩ "iPhone").userData)
        "iPhone 5s").msgs = [Msg.invalidInput] := by
  exact ⟨by decide, by decide⟩

/-- C3, amended: the device cache is shared, so cross-conversation
independence holds only conditionally: when another conversation's
device-type fetch returns exactly the list already cached, its processing
leaves the shared `bot_data` unchanged, and this conversation's handling
of any message — in particular the set of device names accepted at its
device-model step — is literally the same as without the interference.
(The per-conversation wizard fields themselves are never touched by
another conversation's step.) -/
theorem C3_shared_cache_noninterference (envB' : Env) (bot : BotData) (sys : Sys)
    (uB : UserData) (tB : String)
    (hB : uB.state = State.DEVICE_TYPE)
    (henv : envB'.listDevices = bot.devices) :
    (on_text envB' bot sys uB tB).botData = bot
    ∧ ∀ (envA' : Env) (sysA : Sys) (uA : UserData) (tA : String),
        on_text envA' (on_text envB' bot sys uB tB).botData sysA uA tA
          = on_text envA' bot sysA uA tA := by
  have h1 : (on_text envB' bot sys uB tB).botData = bot := by
    obtain ⟨s, d, b⟩ := uB
    cases hB
    simp only [on_text]
    cases hdt : deviceTypeOf tB with
    | none => rfl
    | some dt =>
      simp only [hdt]
      cases hld : envB'.listDevices with
      | none => simp [hld]
      | some all =>
        have hbot : bot = ⟨some all⟩ := by
          obtain ⟨bd⟩ := bot
          rw [henv] at hld
          simpa using hld
        simp only [hld]
        split
        · exact hbot.symm
        · exact hbot.symm
  exact ⟨h1, fun envA' sysA uA tA => by rw [h1]⟩

/-- C3, witness: a device-type selection whose fetch returns the cached
list leaves the shared cache unchanged. -/
theorem C3_shared_cache_noninterference_witness :
    (on_text envA botA sys0 ⟨State.DEVICE_TYPE, none, none⟩ "iPad").botData = botA :=
  (C3_shared_cache_noninterference envA botA sys0
    ⟨State.DEVICE_TYPE, none, none⟩ "iPad" rfl rfl).1

/-- C4, counterexample: a genuine run — `/start`, then "iPhone" (fetch
returns `[dsumA]`), then "iPhone 5s" (detail has exactly one eligible
board and no signed firmware) — reaches session `uStuck`, which is still
at step `DEVICE_MODEL` yet already holds a populated `boardconfig` (and
`device`), contradicting the claimed populated-only-after-advancing
invariant. -/
theorem C4_counterexample :
    Reachable uStuck ∧ uStuck.state = State.DEVICE_MODEL ∧ uStuck.boardconfig ≠ none := by
  refine ⟨?_, rfl, by decide⟩
  have h0 : Reachable ⟨.NONE, none, none⟩ := Reachable.init
  have h1 := Reachable.step_start _ h0
  have h2 := Reachable.step_text envA botNull sys0 _ "iPhone" h1
  have h3 := Reachable.step_text envDetail botA sys0 _ "iPhone 5s" h2
  have he : (on_text envDetail botA sys0
      ((on_text envA botNull sys0 (start ⟨.NONE, none, none⟩).1 "iPhone").userData)
      "iPhone 5s").userData = uStuck := by decide
  exact he ▸ h3

/-- C4, amended: the populated-only-after-advancing invariant fails on the
no-signed-firmwares path (see the counterexample), but every reachable
session satisfies `sessionInv`: nothing is cached at the `NONE` and
`DEVICE_TYPE` steps, a `BOARD_CONFIG` session has a cached device, a
`FIRMWARE` session has both the device detail and the board config
populated, and a cached board config never occurs without a cached
device. -/
theorem C4_session_data_invariant (u : UserData) (h : Reachable u) : sessionInv u :=
  reachable_sessionInv u h

/-- C4, witness. -/
theorem C4_session_data_invariant_witness : sessionInv ⟨State.NONE, none, none⟩ :=
  C4_session_data_invariant ⟨State.NONE, none, none⟩ Reachable.init

end Sepfinder
